import Mathlib

/-!
Shallow embedding of `src/lv_tjpgd.c` (the LVGL adapter around the TJpgDec
block decompression engine) and proofs about its behaviour.

Modelling conventions:
- A C `FILE *` byte stream is a `Stream`: a list of bytes, a read position,
  and a flag saying whether an `fseek` on this handle errors (fseek can fail
  for environmental reasons; `fread` reads as many of the requested bytes as
  remain).
- Byte buffers (`uint8_t *`) are total functions `Nat → Nat` from byte index
  to byte value; `memcpy` is `copyBytes`.  `malloc` is modelled as always
  succeeding (the C code never checks its result) and zero-filling (its
  contents are unspecified in C until the decode callbacks write them).
- The external TJpgDec engine (`jd_prepare` / `jd_decomp`) is a black box, so
  it is a parameter: `jd_decomp` is an `Engine` returning its JRESULT code,
  the list of output-callback invocations it performs (rectangle plus bitmap
  bytes), the stream state after its feed-callback reads, and the number of
  bytes it charged to `fp_consumed_bytes` through the feed callback, and
  `jd_prepare` is a `Prepare` returning its JRESULT code, the native image
  dimensions it writes into the `JDEC` session object, the stream state
  after its header reads, and the same consumed-bytes charge.
- The global mutable state (`jdec`, `user_ctx`, and the two `static` locals
  of `decoder_read`) is one record `AdapterState` threaded explicitly.
- Machine integers are `Nat`/`Int`; wrapping is written out (`% 256` for the
  `uint8_t` counter `lines_sent`, `% 65536` for the `uint16_t` widths `bws`
  and `bwd`) exactly where the C types make overflow observable.
- `BPP` stands for the `BYTES_ON_PIXEL` constant and `DIV` for
  `LV_TJPGD_SCALING_FACTOR_DIV`; both live in the header `lv_tjpgd.h`, which
  is not part of the sources, so they are parameters throughout.
-/

namespace LvTjpgd

/-- LVGL result values: `LV_RES_OK` and `LV_RES_INV`. -/
inductive LvRes where
  | ok
  | inv
deriving DecidableEq, Repr

/-- Model of a C byte stream (`FILE *`): contents, current position, and
whether a seek on this handle errors. -/
structure Stream where
  data : List Nat
  pos : Nat
  seekFails : Bool
deriving DecidableEq, Repr

/-- TJpgDec `JRECT`: a pixel rectangle (all fields `uint16_t`). -/
structure JRECT where
  left : Nat
  right : Nat
  top : Nat
  bottom : Nat
deriving DecidableEq, Repr

/-- The fields of the TJpgDec session object `JDEC` that the adapter reads or
writes: the native image dimensions filled in by `jd_prepare`. -/
structure JDEC where
  width : Nat
  height : Nat
deriving DecidableEq, Repr

/-- The adapter's `decoding_ctx_t` (`user_ctx`).  `fp = none` models a NULL
file pointer, `frame_buffer = none` a NULL (unallocated or freed) strip
buffer, `work` whether the engine work area is currently allocated, and
`lvgl_feeder_ptr` the byte offset of the feeder pointer inside
`frame_buffer`. -/
structure DecodingCtx where
  fp : Option Stream
  frame_buffer : Option (Nat → Nat)
  work : Bool
  out_func_calls : Nat
  frame_buffer_width : Nat
  size_height : Nat
  size_width : Nat
  last_decoded_coord : JRECT
  lvgl_feeder_ptr : Nat
  after_decode_pos : Nat
  fp_consumed_bytes : Int

/-- All adapter-side mutable state: the global `jdec`, the global `user_ctx`,
and the two `static` locals of `decoder_read` (`buffered_data`,
`lines_sent`).  `lines_sent` is a `uint8_t`. -/
structure AdapterState where
  jdec : JDEC
  ctx : DecodingCtx
  buffered_data : Bool
  lines_sent : Nat

/-- Result of one invocation of the feed callback: the C return value, the
bytes deposited in `buff` when a buffer was supplied, and the updated
context (stream position and `fp_consumed_bytes`). -/
structure FeedOut where
  retval : Nat
  buffData : Option (List Nat)
  ctx : DecodingCtx

/-- `on_feed_decoder_cb`.  `buffGiven` says whether `buff` is non-NULL.  The
callback first charges `nbyte` to `fp_consumed_bytes`, then either `fread`s
up to `nbyte` bytes (returning the count actually read) or `fseek`s `nbyte`
bytes forward (returning `nbyte` on success, 0 on failure).  A NULL `fp`
would be undefined behaviour in C; the model returns 0 there. -/
def on_feed_decoder_cb (ctx : DecodingCtx) (buffGiven : Bool) (nbyte : Nat) :
    FeedOut :=
  let ctx1 := { ctx with fp_consumed_bytes := ctx.fp_consumed_bytes + nbyte }
  match ctx1.fp with
  | none => { retval := 0, buffData := none, ctx := ctx1 }
  | some s =>
      if buffGiven then
        let bytes := (s.data.drop s.pos).take nbyte
        { retval := bytes.length,
          buffData := some bytes,
          ctx := { ctx1 with fp := some { s with pos := s.pos + bytes.length } } }
      else
        if s.seekFails then
          { retval := 0, buffData := none, ctx := ctx1 }
        else
          { retval := nbyte, buffData := none,
            ctx := { ctx1 with fp := some { s with pos := s.pos + nbyte } } }

/-- Byte-level `memcpy`: copy `n` bytes from `src` at offset `srcOff` into
`dst` at offset `dstOff`, leaving all other bytes of `dst` unchanged. -/
def copyBytes (dst : Nat → Nat) (dstOff : Nat) (src : Nat → Nat)
    (srcOff n : Nat) : Nat → Nat :=
  fun i => if dstOff ≤ i ∧ i < dstOff + n then src (srcOff + (i - dstOff)) else dst i

/-- The row loop of the output callbacks: copy `k` rows of `bws` bytes each
from `bitmap` (rows packed back to back) into `fb`, the destination advancing
by the stride `bwd` per row.  Mirrors the
`for (y = top; y <= bottom; y++) memcpy(dst, src, bws); src += bws; dst += bwd;`
loop with `k` the number of iterations. -/
def copyRows (bitmap : Nat → Nat) (bws bwd : Nat) :
    (Nat → Nat) → Nat → Nat → Nat → (Nat → Nat)
  | fb, _, _, 0 => fb
  | fb, dstOff, srcOff, k + 1 =>
      copyRows bitmap bws bwd (copyBytes fb dstOff bitmap srcOff bws)
        (dstOff + bwd) (srcOff + bws) k

/-- `on_decoder_line_output_cb`: bumps the instrumentation counter, records
the rectangle, and copies the rectangle's rows into the strip buffer at
offset `BPP * (top * frame_buffer_width + left)` with source row width
`bws = BPP * (right - left + 1)` and destination stride
`bwd = BPP * frame_buffer_width` (both `uint16_t`, hence the `% 65536`).
Always returns 1 (continue).  A NULL `frame_buffer` would be undefined
behaviour in C; the model leaves the buffer field unchanged there. -/
def on_decoder_line_output_cb (BPP : Nat) (ctx : DecodingCtx)
    (bitmap : Nat → Nat) (rect : JRECT) : Nat × DecodingCtx :=
  let ctx1 := { ctx with
    out_func_calls := ctx.out_func_calls + 1
    last_decoded_coord := rect }
  match ctx1.frame_buffer with
  | none => (1, ctx1)
  | some fb =>
      let dstBase := BPP * (rect.top * ctx1.frame_buffer_width + rect.left)
      let bws := (BPP * (rect.right - rect.left + 1)) % 65536
      let bwd := (BPP * ctx1.frame_buffer_width) % 65536
      let rows := rect.bottom + 1 - rect.top
      (1, { ctx1 with
            frame_buffer := some (copyRows bitmap bws bwd fb dstBase 0 rows) })

/-- What the adapter observes of one `jd_decomp` call: the JRESULT code, the
sequence of output-callback invocations (rectangle and bitmap bytes) the
engine performs, the stream after the engine's feed-callback reads, and the
total byte count the feed callback charged to `fp_consumed_bytes`. -/
structure DecompOut where
  res : Nat
  rects : List (JRECT × (Nat → Nat))
  fp : Option Stream
  consumed : Int

/-- The external `jd_decomp`, abstracted: it sees the `JDEC` session object
(as mutated by the adapter just before the call) and the current stream. -/
abbrev Engine := JDEC → Option Stream → DecompOut

/-- Apply the row-copy output callback once per rectangle the engine emits,
in order, threading the context (strip buffer, instrumentation fields).  The
callback always returns 1, so the engine never aborts on its account. -/
def runOutputCbs (BPP : Nat) : DecodingCtx → List (JRECT × (Nat → Nat)) → DecodingCtx
  | ctx, [] => ctx
  | ctx, rb :: rest =>
      runOutputCbs BPP (on_decoder_line_output_cb BPP ctx rb.2 rb.1).2 rest

/-- `ftell` on a possibly-NULL file pointer (NULL would be undefined
behaviour in C; the model returns 0 there). -/
def ftellModel : Option Stream → Nat
  | none => 0
  | some s => s.pos

/-- The `n` bytes of buffer `fb` starting at byte offset `off`, in order:
what a `memcpy(out, fb + off, n)` deposits in the caller's buffer. -/
def bufBytes (fb : Nat → Nat) (off n : Nat) : List Nat :=
  (List.range n).map (fun i => fb (off + i))

/-- Result of one `decoder_read` call: the LVGL result code, the updated
adapter state, the bytes written to the caller's output buffer, and how many
times this call invoked the engine's `jd_decomp` (0 or 1). -/
structure ReadOut where
  retval : LvRes
  st : AdapterState
  outBytes : List Nat
  decompCalls : Nat

/-- `decoder_read`.  The `x` and `y` arguments are part of the C signature
but are never used by the body.  Cache hit (`buffered_data` true): copy
`len * BPP` bytes from the feeder pointer, advance it, bump `lines_sent`
(`uint8_t`), and when the bumped counter exceeds 7 free the strip buffer and
reset both static flags.  Cache miss: allocate a `size_width * 8 * BPP`-byte
strip buffer, set `jdec.height` to 8, run `jd_decomp` (whose result code is
assigned to a local that is never examined), copy the first `len * BPP`
bytes of the strip to the caller, set the feeder pointer past them, record
the post-decode stream position, bump `lines_sent`, and mark the strip
buffered.  Returns `LV_RES_OK` on every path actually taken. -/
def decoder_read (BPP : Nat) (engine : Engine) (st : AdapterState)
    (x y : Int) (len : Nat) : ReadOut :=
  if st.buffered_data then
    let fb := st.ctx.frame_buffer.getD (fun _ => 0)
    let out := bufBytes fb st.ctx.lvgl_feeder_ptr (len * BPP)
    let ctx1 := { st.ctx with
      lvgl_feeder_ptr := st.ctx.lvgl_feeder_ptr + len * BPP }
    let ls := (st.lines_sent + 1) % 256
    if 7 < ls then
      { retval := LvRes.ok
        st := { st with
          ctx := { ctx1 with frame_buffer := none }
          buffered_data := false
          lines_sent := 0 }
        outBytes := out
        decompCalls := 0 }
    else
      { retval := LvRes.ok
        st := { st with ctx := ctx1, lines_sent := ls }
        outBytes := out
        decompCalls := 0 }
  else
    let ctx0 := { st.ctx with frame_buffer := some (fun _ => 0) }
    let jdec1 : JDEC := { st.jdec with height := 8 }
    let er := engine jdec1 ctx0.fp
    let ctx1 := runOutputCbs BPP ctx0 er.rects
    let ctx2 := { ctx1 with
      fp := er.fp
      fp_consumed_bytes := ctx1.fp_consumed_bytes + er.consumed }
    let fb := ctx2.frame_buffer.getD (fun _ => 0)
    let bytesToSend := len * BPP
    let out := bufBytes fb 0 bytesToSend
    let ctx3 := { ctx2 with
      lvgl_feeder_ptr := bytesToSend
      after_decode_pos := ftellModel er.fp }
    { retval := LvRes.ok
      st := { st with
        jdec := jdec1
        ctx := ctx3
        buffered_data := true
        lines_sent := (st.lines_sent + 1) % 256 }
      outBytes := out
      decompCalls := 1 }

/-- The transition of `decoder_read`'s two static locals
`(buffered_data, lines_sent)` in one call, isolated from everything else:
a miss buffers a strip and bumps the counter; a hit bumps the counter and,
when the bumped counter exceeds 7, drops back to the unbuffered state. -/
def flagsAfter : Bool × Nat → Bool × Nat
  | (false, l) => (true, (l + 1) % 256)
  | (true, l) =>
      if 7 < (l + 1) % 256 then (false, 0) else (true, (l + 1) % 256)

/-- The adapter state after the first `n` `decoder_read` calls of a session,
where call `i` passes coordinates `(xs i, ys i)` and length `lens i`. -/
def stateAfter (BPP : Nat) (engine : Engine) (xs ys : Nat → Int)
    (lens : Nat → Nat) (st0 : AdapterState) : Nat → AdapterState
  | 0 => st0
  | n + 1 =>
      (decoder_read BPP engine (stateAfter BPP engine xs ys lens st0 n)
        (xs n) (ys n) (lens n)).st

/-- The outcome of the `(n+1)`-st `decoder_read` call of such a session. -/
def readAt (BPP : Nat) (engine : Engine) (xs ys : Nat → Int)
    (lens : Nat → Nat) (st0 : AdapterState) (n : Nat) : ReadOut :=
  decoder_read BPP engine (stateAfter BPP engine xs ys lens st0 n)
    (xs n) (ys n) (lens n)

/-- LVGL image header (`lv_img_header_t`) fields the adapter writes. -/
structure Header where
  always_zero : Nat
  cf : Nat
  w : Nat
  h : Nat
deriving DecidableEq, Repr

/-- The numeric value of the external LVGL constant `LV_IMG_CF_RAW`; the
exact numeral is immaterial to every property proved here. -/
def LV_IMG_CF_RAW : Nat := 0

/-- LVGL image source kinds (`lv_img_src_t`). -/
inductive ImgSrcType where
  | file
  | varSrc
  | symbolSrc
  | unknownSrc
deriving DecidableEq, Repr

/-- An image source: its LVGL kind and, for the file kind, its path. -/
structure ImgSrc where
  srcType : ImgSrcType
  filename : List Char
deriving DecidableEq, Repr

/-- What the adapter observes of one `jd_prepare` call: the JRESULT code,
the native width and height it writes into the `JDEC` session object, the
stream after its header reads, and the byte count its feed-callback reads
charged to `fp_consumed_bytes`. -/
structure PrepareOut where
  res : Nat
  width : Nat
  height : Nat
  fp : Option Stream
  consumed : Int

/-- The external `jd_prepare`, abstracted over the opened stream. -/
abbrev Prepare := Option Stream → PrepareOut

/-- Result of one `decoder_info` call: the LVGL result code, the header
fields written (none when the call fails before writing them), and the
updated adapter state. -/
structure InfoOut where
  retval : LvRes
  header : Option Header
  st : AdapterState

/-- `decoder_info`.  `fopenResult` models the outcome of
`fopen(fn, "rb")` for this source.  For a file source whose last three
characters are `jpg`: a failed open stores NULL in `user_ctx.fp` and fails;
otherwise `jd_prepare` runs, and on success the header gets
`w = jdec.width / DIV` and the hard-coded `h = 8`, which are also copied
into `user_ctx`.  On `jd_prepare` failure the call fails with the stream
left open (no `fclose` in the C source).  A variable source is a stub that
reports success; anything else fails. -/
def decoder_info (DIV : Nat) (prepare : Prepare) (fopenResult : Option Stream)
    (st : AdapterState) (src : ImgSrc) : InfoOut :=
  match src.srcType with
  | ImgSrcType.file =>
      if src.filename.drop (src.filename.length - 3) = ['j', 'p', 'g'] then
        match fopenResult with
        | none =>
            { retval := LvRes.inv, header := none,
              st := { st with ctx := { st.ctx with fp := none } } }
        | some s =>
            let p := prepare (some s)
            let st1 := { st with
              jdec := { width := p.width, height := p.height }
              ctx := { st.ctx with
                fp := p.fp
                fp_consumed_bytes := st.ctx.fp_consumed_bytes + p.consumed } }
            if p.res = 0 then
              { retval := LvRes.ok,
                header := some { always_zero := 0, cf := LV_IMG_CF_RAW,
                                 w := p.width / DIV, h := 8 },
                st := { st1 with ctx := { st1.ctx with
                  frame_buffer_width := p.width / DIV
                  size_height := 8
                  size_width := p.width / DIV } } }
            else
              { retval := LvRes.inv, header := none, st := st1 }
      else { retval := LvRes.inv, header := none, st := st }
  | ImgSrcType.varSrc => { retval := LvRes.ok, header := none, st := st }
  | _ => { retval := LvRes.inv, header := none, st := st }

/-- The fields of the LVGL decoder descriptor (`lv_img_decoder_dsc_t`) the
adapter touches: the source kind, the file path, and the eagerly-decoded
image pointer. -/
structure Dsc where
  src_type : ImgSrcType
  filename : List Char
  img_data : Option (Nat → Nat)

/-- `decoder_open`: on the streaming (file) path it stores NULL in
`dsc → img_data`, telling LVGL to use line-by-line reads; the variable
source is a stub reporting success; anything else fails. -/
def decoder_open (dsc : Dsc) : LvRes × Dsc :=
  match dsc.src_type with
  | ImgSrcType.file =>
      if dsc.filename.drop (dsc.filename.length - 3) = ['j', 'p', 'g'] then
        (LvRes.ok, { dsc with img_data := none })
      else (LvRes.inv, dsc)
  | ImgSrcType.varSrc => (LvRes.ok, dsc)
  | _ => (LvRes.inv, dsc)

/-- `decoder_close`: frees the engine work area and, when non-NULL, the
descriptor's eagerly-decoded image buffer.  It touches nothing else: in
particular it neither closes `user_ctx.fp` nor frees
`user_ctx.frame_buffer`. -/
def decoder_close (st : AdapterState) (dsc : Dsc) : AdapterState × Dsc :=
  ({ st with ctx := { st.ctx with work := false } },
    { dsc with img_data := none })

/-! Concrete objects used by witnesses and counterexamples. -/

/-- A concrete stream: five bytes, position 1, seeks succeed. -/
def wStream : Stream := { data := [10, 20, 30, 40, 50], pos := 1, seekFails := false }

/-- A concrete `user_ctx` with `wStream` open and no strip buffer. -/
def wCtx : DecodingCtx :=
  { fp := some wStream, frame_buffer := none, work := true,
    out_func_calls := 0, frame_buffer_width := 4, size_height := 8,
    size_width := 4, last_decoded_coord := ⟨0, 0, 0, 0⟩,
    lvgl_feeder_ptr := 0, after_decode_pos := 0, fp_consumed_bytes := 0 }

/-- A concrete 4-pixel-wide context holding an all-zero strip buffer. -/
def wCtxFb : DecodingCtx :=
  { wCtx with frame_buffer := some (fun _ => 0) }

/-- A concrete bitmap: byte `i` has value `i`. -/
def wBitmap : Nat → Nat := fun i => i

/-- A concrete strip-buffer content: byte `i` has value `i + 100`. -/
def wStripBuf : Nat → Nat := fun i => i + 100

/-- A concrete context with the strip `wStripBuf` resident. -/
def wCtxHit : DecodingCtx :=
  { wCtx with frame_buffer := some wStripBuf }

/-- A fresh session state: nothing buffered, counter 0 (the initial values
of the static locals), native dimensions 64 by 64. -/
def wFreshState : AdapterState :=
  { jdec := ⟨64, 64⟩, ctx := wCtx, buffered_data := false, lines_sent := 0 }

/-- A mid-strip state: strip resident and 7 lines already served. -/
def wStateLines7 : AdapterState :=
  { jdec := ⟨64, 8⟩, ctx := wCtxHit, buffered_data := true, lines_sent := 7 }

/-- A mid-strip state: strip resident and 1 line already served. -/
def wStateLines1 : AdapterState :=
  { wStateLines7 with lines_sent := 1 }

/-- An engine stub whose `jd_decomp` succeeds, emits no rectangles, and
leaves the stream where it was. -/
def nullEngine : Engine := fun _ fp => { res := 0, rects := [], fp := fp, consumed := 0 }

/-- An engine stub whose `jd_decomp` fails with JRESULT code 6
(`JDR_FMT1`, data format error). -/
def errEngine : Engine := fun _ fp => { res := 6, rects := [], fp := fp, consumed := 0 }

/-- A `jd_prepare` stub that succeeds reporting a 64-by-64 native image and
consuming 2 header bytes. -/
def okPrepare : Prepare :=
  fun fp => { res := 0, width := 64, height := 64, fp := fp, consumed := 2 }

/-- A `jd_prepare` stub that fails with JRESULT code 6 (`JDR_FMT1`). -/
def failPrepare : Prepare :=
  fun fp => { res := 6, width := 0, height := 0, fp := fp, consumed := 2 }

/-- A concrete file source named `a.jpg`. -/
def wSrcJpg : ImgSrc := { srcType := ImgSrcType.file, filename := ['a', '.', 'j', 'p', 'g'] }

/-- A concrete descriptor on the streaming path (`img_data` NULL). -/
def wDsc : Dsc :=
  { src_type := ImgSrcType.file, filename := ['a', '.', 'j', 'p', 'g'], img_data := none }

/-! Theorems. -/

/-- C7: for every invocation of the feed callback with byte count `nbyte` on
an open stream `s`: with a destination buffer it reads `nbyte` bytes from the
stream into the buffer (as many as remain when fewer are available) and
returns the number of bytes actually read, advancing the stream by that
count; without a buffer it skips `nbyte` bytes forward and returns `nbyte`
when the seek succeeds, and returns 0 when the seek fails. -/
theorem on_feed_decoder_cb_contract (ctx : DecodingCtx) (s : Stream)
    (nbyte : Nat) (hfp : ctx.fp = some s) :
    ((on_feed_decoder_cb ctx true nbyte).buffData
        = some ((s.data.drop s.pos).take nbyte) ∧
      (on_feed_decoder_cb ctx true nbyte).retval
        = ((s.data.drop s.pos).take nbyte).length ∧
      (on_feed_decoder_cb ctx true nbyte).ctx.fp
        = some { s with pos := s.pos + ((s.data.drop s.pos).take nbyte).length }) ∧
    (if s.seekFails then
       (on_feed_decoder_cb ctx false nbyte).retval = 0
     else
       (on_feed_decoder_cb ctx false nbyte).retval = nbyte ∧
       (on_feed_decoder_cb ctx false nbyte).ctx.fp
         = some { s with pos := s.pos + nbyte }) := by
  cases hsf : s.seekFails <;>
    simp [on_feed_decoder_cb, hfp, hsf]

/-- Witness for C7 at a concrete input: reading 2 bytes from `wStream` at
position 1 yields bytes [20, 30] and return value 2; skipping 2 bytes
returns 2 and moves the position to 3. -/
theorem on_feed_decoder_cb_contract_witness :
    wCtx.fp = some wStream ∧
    (((on_feed_decoder_cb wCtx true 2).buffData
        = some ((wStream.data.drop wStream.pos).take 2) ∧
      (on_feed_decoder_cb wCtx true 2).retval
        = ((wStream.data.drop wStream.pos).take 2).length ∧
      (on_feed_decoder_cb wCtx true 2).ctx.fp
        = some { wStream with
            pos := wStream.pos + ((wStream.data.drop wStream.pos).take 2).length }) ∧
    (if wStream.seekFails then
       (on_feed_decoder_cb wCtx false 2).retval = 0
     else
       (on_feed_decoder_cb wCtx false 2).retval = 2 ∧
       (on_feed_decoder_cb wCtx false 2).ctx.fp
         = some { wStream with pos := wStream.pos + 2 })) :=
  ⟨rfl, on_feed_decoder_cb_contract wCtx wStream 2 rfl⟩

/-- Bytes strictly below the destination offset are never touched by the row
loop. -/
theorem copyRows_untouched (bitmap : Nat → Nat) (bws bwd : Nat) :
    ∀ (k : Nat) (fb : Nat → Nat) (dstOff srcOff p : Nat), p < dstOff →
      copyRows bitmap bws bwd fb dstOff srcOff k p = fb p := by
  intro k
  induction k with
  | zero => intro fb dstOff srcOff p _; rfl
  | succ k ih =>
      intro fb dstOff srcOff p hp
      have h1 : p < dstOff + bwd := lt_of_lt_of_le hp (Nat.le_add_right _ _)
      have h2 := ih (copyBytes fb dstOff bitmap srcOff bws)
        (dstOff + bwd) (srcOff + bws) p h1
      have h3 : copyBytes fb dstOff bitmap srcOff bws p = fb p := by
        unfold copyBytes
        have : ¬ (dstOff ≤ p ∧ p < dstOff + bws) := by
          rintro ⟨h, _⟩; exact absurd hp (not_lt.mpr h)
        simp [this]
      calc copyRows bitmap bws bwd fb dstOff srcOff (k + 1) p
          = copyRows bitmap bws bwd (copyBytes fb dstOff bitmap srcOff bws)
              (dstOff + bwd) (srcOff + bws) k p := rfl
        _ = copyBytes fb dstOff bitmap srcOff bws p := h2
        _ = fb p := h3

/-- Main lookup lemma for the row loop: when the source row width does not
exceed the destination stride, byte `j` of destination row `r` ends up equal
to byte `j` of source row `r`. -/
theorem copyRows_lookup (bitmap : Nat → Nat) (bws bwd : Nat)
    (hb : bws ≤ bwd) :
    ∀ (k : Nat) (fb : Nat → Nat) (dstOff srcOff r j : Nat), r < k → j < bws →
      copyRows bitmap bws bwd fb dstOff srcOff k (dstOff + r * bwd + j)
        = bitmap (srcOff + r * bws + j) := by
  intro k
  induction k with
  | zero => intro fb dstOff srcOff r j hr _; exact absurd hr (Nat.not_lt_zero r)
  | succ k ih =>
      intro fb dstOff srcOff r j hr hj
      cases r with
      | zero =>
          have hpos : dstOff + 0 * bwd + j = dstOff + j := by ring
          rw [hpos]
          have hlt : dstOff + j < dstOff + bwd :=
            Nat.add_lt_add_left (lt_of_lt_of_le hj hb) dstOff
          have huntouched := copyRows_untouched bitmap bws bwd k
            (copyBytes fb dstOff bitmap srcOff bws)
            (dstOff + bwd) (srcOff + bws) (dstOff + j) hlt
          have hstep : copyRows bitmap bws bwd fb dstOff srcOff (k + 1)
              (dstOff + j)
              = copyBytes fb dstOff bitmap srcOff bws (dstOff + j) := huntouched
          rw [hstep]
          unfold copyBytes
          have hcond : dstOff ≤ dstOff + j ∧ dstOff + j < dstOff + bws :=
            ⟨Nat.le_add_right _ _, Nat.add_lt_add_left hj dstOff⟩
          simp [hcond]
      | succ r =>
          have hr2 : r < k := Nat.lt_of_succ_lt_succ hr
          have hdst : dstOff + (r + 1) * bwd + j = (dstOff + bwd) + r * bwd + j := by
            ring
          have hsrc : srcOff + (r + 1) * bws + j = (srcOff + bws) + r * bws + j := by
            ring
          rw [hdst, hsrc]
          exact ih (copyBytes fb dstOff bitmap srcOff bws)
            (dstOff + bwd) (srcOff + bws) r j hr2 hj

/-- C8: for every invocation of the row-copy output callback with a resident
strip buffer and a rectangle that fits inside the strip width, each source
pixel row `r` (for the rows `top` through `bottom`) is copied to the
destination offset `BPP * (top * scaledWidth + left)` plus `r` times the
destination stride `BPP * scaledWidth`, with row width
`(right - left + 1) * BPP`; and the callback returns the continue code 1
(it returns 1 on every input, including NULL buffers). -/
theorem on_decoder_line_output_cb_copies (BPP : Nat) (ctx : DecodingCtx)
    (bitmap : Nat → Nat) (rect : JRECT) (fb : Nat → Nat)
    (hfb : ctx.frame_buffer = some fb)
    (hlr : rect.left ≤ rect.right)
    (htb : rect.top ≤ rect.bottom)
    (hrw : rect.right < ctx.frame_buffer_width)
    (hws : BPP * (rect.right - rect.left + 1) < 65536)
    (hwd : BPP * ctx.frame_buffer_width < 65536) :
    (on_decoder_line_output_cb BPP ctx bitmap rect).1 = 1 ∧
    (∀ ctx2 bitmap2 rect2,
      (on_decoder_line_output_cb BPP ctx2 bitmap2 rect2).1 = 1) ∧
    ∃ fb2,
      (on_decoder_line_output_cb BPP ctx bitmap rect).2.frame_buffer = some fb2 ∧
      ∀ r, r ≤ rect.bottom - rect.top →
        ∀ j, j < BPP * (rect.right - rect.left + 1) →
          fb2 (BPP * (rect.top * ctx.frame_buffer_width + rect.left)
                + r * (BPP * ctx.frame_buffer_width) + j)
            = bitmap (r * (BPP * (rect.right - rect.left + 1)) + j) := by
  have hret : ∀ ctx2 bitmap2 rect2,
      (on_decoder_line_output_cb BPP ctx2 bitmap2 rect2).1 = 1 := by
    intro ctx2 bitmap2 rect2
    unfold on_decoder_line_output_cb
    cases h : ctx2.frame_buffer <;> simp [h]
  refine ⟨hret ctx bitmap rect, hret, ?_⟩
  have hbws : (BPP * (rect.right - rect.left + 1)) % 65536
      = BPP * (rect.right - rect.left + 1) := Nat.mod_eq_of_lt hws
  have hbwd : (BPP * ctx.frame_buffer_width) % 65536
      = BPP * ctx.frame_buffer_width := Nat.mod_eq_of_lt hwd
  refine ⟨copyRows bitmap (BPP * (rect.right - rect.left + 1))
      (BPP * ctx.frame_buffer_width) fb
      (BPP * (rect.top * ctx.frame_buffer_width + rect.left)) 0
      (rect.bottom + 1 - rect.top), ?_, ?_⟩
  · unfold on_decoder_line_output_cb
    simp [hfb, hbws, hbwd]
  · intro r hr j hj
    have hble : BPP * (rect.right - rect.left + 1) ≤ BPP * ctx.frame_buffer_width :=
      Nat.mul_le_mul (Nat.le_refl BPP) (by omega)
    have hrk : r < rect.bottom + 1 - rect.top := by omega
    have := copyRows_lookup bitmap
      (BPP * (rect.right - rect.left + 1))
      (BPP * ctx.frame_buffer_width)
      hble
      (rect.bottom + 1 - rect.top) fb
      (BPP * (rect.top * ctx.frame_buffer_width + rect.left)) 0 r j
      hrk hj
    simpa using this

/-- Witness for C8 at a concrete input: strip width 4, bytes-per-pixel 2,
rectangle covering columns 0..3 and rows 0..7. -/
theorem on_decoder_line_output_cb_copies_witness :
    (wCtxFb.frame_buffer = some (fun _ => 0) ∧
      (0 : Nat) ≤ 3 ∧ (0 : Nat) ≤ 7 ∧ (3 : Nat) < wCtxFb.frame_buffer_width ∧
      2 * (3 - 0 + 1) < 65536 ∧ 2 * wCtxFb.frame_buffer_width < 65536) ∧
    ((on_decoder_line_output_cb 2 wCtxFb wBitmap ⟨0, 3, 0, 7⟩).1 = 1 ∧
    (∀ ctx2 bitmap2 rect2,
      (on_decoder_line_output_cb 2 ctx2 bitmap2 rect2).1 = 1) ∧
    ∃ fb2,
      (on_decoder_line_output_cb 2 wCtxFb wBitmap ⟨0, 3, 0, 7⟩).2.frame_buffer
        = some fb2 ∧
      ∀ r, r ≤ (JRECT.mk 0 3 0 7).bottom - (JRECT.mk 0 3 0 7).top →
        ∀ j, j < 2 * ((JRECT.mk 0 3 0 7).right - (JRECT.mk 0 3 0 7).left + 1) →
          fb2 (2 * ((JRECT.mk 0 3 0 7).top * wCtxFb.frame_buffer_width
                  + (JRECT.mk 0 3 0 7).left)
                + r * (2 * wCtxFb.frame_buffer_width) + j)
            = wBitmap (r * (2 * ((JRECT.mk 0 3 0 7).right
                  - (JRECT.mk 0 3 0 7).left + 1)) + j)) :=
  ⟨⟨rfl, by decide, by decide, by decide, by decide, by decide⟩,
    on_decoder_line_output_cb_copies 2 wCtxFb wBitmap ⟨0, 3, 0, 7⟩
      (fun _ => 0) rfl (by decide) (by decide) (by decide) (by decide) (by decide)⟩

/-- One `decoder_read` call moves the static locals exactly as `flagsAfter`
says, and invokes `jd_decomp` exactly once on a miss and never on a hit —
independently of the engine, the coordinates, and the length. -/
theorem decoder_read_flags (BPP : Nat) (engine : Engine) (st : AdapterState)
    (x y : Int) (len : Nat) :
    ((decoder_read BPP engine st x y len).st.buffered_data,
      (decoder_read BPP engine st x y len).st.lines_sent)
      = flagsAfter (st.buffered_data, st.lines_sent) ∧
    (decoder_read BPP engine st x y len).decompCalls
      = (if st.buffered_data then 0 else 1) := by
  cases hb : st.buffered_data
  · simp [decoder_read, flagsAfter, hb]
  · by_cases h7 : 7 < (st.lines_sent + 1) % 256 <;>
      simp [decoder_read, flagsAfter, hb, h7]

/-- Iterating `decoder_read` from a fresh session iterates `flagsAfter` from
`(false, 0)` on the static locals, whatever the engine and arguments. -/
theorem stateAfter_flags (BPP : Nat) (engine : Engine) (xs ys : Nat → Int)
    (lens : Nat → Nat) (st0 : AdapterState)
    (hb : st0.buffered_data = false) (hl : st0.lines_sent = 0) :
    ∀ n, ((stateAfter BPP engine xs ys lens st0 n).buffered_data,
          (stateAfter BPP engine xs ys lens st0 n).lines_sent)
        = flagsAfter^[n] (false, 0) := by
  intro n
  induction n with
  | zero => simp [stateAfter, hb, hl]
  | succ n ih =>
      rw [Function.iterate_succ_apply', ← ih]
      exact (decoder_read_flags BPP engine
        (stateAfter BPP engine xs ys lens st0 n) (xs n) (ys n) (lens n)).1

/-- In a fresh session, whether call `n` decompresses is read off the
`flagsAfter` iteration. -/
theorem readAt_decompCalls (BPP : Nat) (engine : Engine) (xs ys : Nat → Int)
    (lens : Nat → Nat) (st0 : AdapterState)
    (hb : st0.buffered_data = false) (hl : st0.lines_sent = 0) (n : Nat) :
    (readAt BPP engine xs ys lens st0 n).decompCalls
      = (if (flagsAfter^[n] (false, 0)).1 then 0 else 1) := by
  have h1 := (decoder_read_flags BPP engine
    (stateAfter BPP engine xs ys lens st0 n) (xs n) (ys n) (lens n)).2
  have h2 := stateAfter_flags BPP engine xs ys lens st0 hb hl n
  have h3 : (stateAfter BPP engine xs ys lens st0 n).buffered_data
      = (flagsAfter^[n] (false, 0)).1 := by
    rw [← h2]
  rw [readAt, h1, h3]

/-- C2: starting from a fresh session, the 16 `decoder_read` calls serving
rows 0 through 15 invoke the engine's `jd_decomp` exactly twice in total —
once during call 0 (which decodes the strip covering rows 0..7) and once
during call 8 (rows 8..15) — and calls 1 through 7 (and 9 through 15)
invoke it zero times.  This holds for every engine behaviour and every
sequence of coordinate and length arguments. -/
theorem decoder_read_two_decompressions (BPP : Nat) (engine : Engine)
    (xs ys : Nat → Int) (lens : Nat → Nat) (st0 : AdapterState)
    (hb : st0.buffered_data = false) (hl : st0.lines_sent = 0) :
    ((List.range 16).map
        (fun i => (readAt BPP engine xs ys lens st0 i).decompCalls)).sum = 2 ∧
    (readAt BPP engine xs ys lens st0 0).decompCalls = 1 ∧
    (readAt BPP engine xs ys lens st0 8).decompCalls = 1 ∧
    (∀ i, 1 ≤ i → i ≤ 7 →
      (readAt BPP engine xs ys lens st0 i).decompCalls = 0) ∧
    (∀ i, 9 ≤ i → i ≤ 15 →
      (readAt BPP engine xs ys lens st0 i).decompCalls = 0) := by
  have key := readAt_decompCalls BPP engine xs ys lens st0 hb hl
  refine ⟨?_, ?_, ?_, ?_, ?_⟩
  · simp only [key]; decide
  · rw [key]; decide
  · rw [key]; decide
  · intro i h1 h7; rw [key]; interval_cases i <;> decide
  · intro i h9 h15; rw [key]; interval_cases i <;> decide

/-- Witness for C2 at a concrete input: fresh state `wFreshState`, the
always-succeeding engine stub, all coordinates 0 and all lengths 4. -/
theorem decoder_read_two_decompressions_witness :
    wFreshState.buffered_data = false ∧ wFreshState.lines_sent = 0 ∧
    (((List.range 16).map
        (fun i => (readAt 2 nullEngine (fun _ => 0) (fun _ => 0) (fun _ => 4)
          wFreshState i).decompCalls)).sum = 2 ∧
    (readAt 2 nullEngine (fun _ => 0) (fun _ => 0) (fun _ => 4)
        wFreshState 0).decompCalls = 1 ∧
    (readAt 2 nullEngine (fun _ => 0) (fun _ => 0) (fun _ => 4)
        wFreshState 8).decompCalls = 1 ∧
    (∀ i, 1 ≤ i → i ≤ 7 →
      (readAt 2 nullEngine (fun _ => 0) (fun _ => 0) (fun _ => 4)
        wFreshState i).decompCalls = 0) ∧
    (∀ i, 9 ≤ i → i ≤ 15 →
      (readAt 2 nullEngine (fun _ => 0) (fun _ => 0) (fun _ => 4)
        wFreshState i).decompCalls = 0)) :=
  ⟨rfl, rfl, decoder_read_two_decompressions 2 nullEngine
    (fun _ => 0) (fun _ => 0) (fun _ => 4) wFreshState rfl rfl⟩

/-- C3 counterexample: the claim says the cache is invalidated exactly when
the lines-served counter exceeds the strip height 8.  In the state
`wStateLines7` (strip resident, 7 lines served) a hit call bumps the counter
to 8 — which does not exceed 8 — and yet the cache is invalidated: the
buffered flag is cleared and the strip buffer freed.  So invalidation
happens at a counter value that never exceeds the strip height. -/
theorem decoder_read_invalidates_at_eight :
    (decoder_read 2 nullEngine wStateLines7 0 0 4).st.buffered_data = false ∧
    (decoder_read 2 nullEngine wStateLines7 0 0 4).st.ctx.frame_buffer = none ∧
    wStateLines7.lines_sent + 1 ≤ 8 :=
  ⟨rfl, rfl, by decide⟩

/-- C3 (amended): on every cache-hit call with the counter in its invariant
range, `decoder_read` copies `len` pixels (`len * BPP` bytes) starting at
the strip cursor into the output buffer, advances the strip cursor by `len`
pixels, reports success without decompressing, and increments the
lines-served counter; the cache is invalidated and its buffer released
exactly when the incremented counter *reaches* the strip height 8 (i.e.
exceeds 7), so that the next call misses. -/
theorem decoder_read_hit_serves_line (BPP : Nat) (engine : Engine)
    (st : AdapterState) (x y : Int) (len : Nat) (fb : Nat → Nat)
    (hb : st.buffered_data = true) (hfb : st.ctx.frame_buffer = some fb)
    (hls : st.lines_sent < 8) :
    (decoder_read BPP engine st x y len).retval = LvRes.ok ∧
    (decoder_read BPP engine st x y len).outBytes
      = bufBytes fb st.ctx.lvgl_feeder_ptr (len * BPP) ∧
    (decoder_read BPP engine st x y len).st.ctx.lvgl_feeder_ptr
      = st.ctx.lvgl_feeder_ptr + len * BPP ∧
    (decoder_read BPP engine st x y len).decompCalls = 0 ∧
    (if st.lines_sent + 1 = 8 then
       (decoder_read BPP engine st x y len).st.buffered_data = false ∧
       (decoder_read BPP engine st x y len).st.lines_sent = 0 ∧
       (decoder_read BPP engine st x y len).st.ctx.frame_buffer = none
     else
       (decoder_read BPP engine st x y len).st.buffered_data = true ∧
       (decoder_read BPP engine st x y len).st.lines_sent = st.lines_sent + 1 ∧
       (decoder_read BPP engine st x y len).st.ctx.frame_buffer = some fb) := by
  have hmod : (st.lines_sent + 1) % 256 = st.lines_sent + 1 :=
    Nat.mod_eq_of_lt (by omega)
  by_cases h8 : st.lines_sent + 1 = 8
  · have h7 : 7 < (st.lines_sent + 1) % 256 := by omega
    simp [decoder_read, hb, hfb, hmod, h8, h7]
  · have h7 : ¬ 7 < (st.lines_sent + 1) % 256 := by
      rw [hmod]; omega
    have h7b : ¬ 7 < st.lines_sent + 1 := by omega
    simp [decoder_read, hb, hfb, hmod, h8, h7, h7b]

/-- Witness for the amended C3 at a concrete input: strip resident with 1
line served; the call serves bytes 8..15 of the strip and keeps the cache. -/
theorem decoder_read_hit_serves_line_witness :
    (wStateLines1.buffered_data = true ∧
      wStateLines1.ctx.frame_buffer = some wStripBuf ∧
      wStateLines1.lines_sent < 8) ∧
    ((decoder_read 2 nullEngine wStateLines1 0 0 4).retval = LvRes.ok ∧
    (decoder_read 2 nullEngine wStateLines1 0 0 4).outBytes
      = bufBytes wStripBuf wStateLines1.ctx.lvgl_feeder_ptr (4 * 2) ∧
    (decoder_read 2 nullEngine wStateLines1 0 0 4).st.ctx.lvgl_feeder_ptr
      = wStateLines1.ctx.lvgl_feeder_ptr + 4 * 2 ∧
    (decoder_read 2 nullEngine wStateLines1 0 0 4).decompCalls = 0 ∧
    (if wStateLines1.lines_sent + 1 = 8 then
       (decoder_read 2 nullEngine wStateLines1 0 0 4).st.buffered_data = false ∧
       (decoder_read 2 nullEngine wStateLines1 0 0 4).st.lines_sent = 0 ∧
       (decoder_read 2 nullEngine wStateLines1 0 0 4).st.ctx.frame_buffer = none
     else
       (decoder_read 2 nullEngine wStateLines1 0 0 4).st.buffered_data = true ∧
       (decoder_read 2 nullEngine wStateLines1 0 0 4).st.lines_sent
         = wStateLines1.lines_sent + 1 ∧
       (decoder_read 2 nullEngine wStateLines1 0 0 4).st.ctx.frame_buffer
         = some wStripBuf)) :=
  ⟨⟨rfl, rfl, by decide⟩,
    decoder_read_hit_serves_line 2 nullEngine wStateLines1 0 0 4 wStripBuf
      rfl rfl (by decide)⟩

/-- C4 (code bug): on a cache miss in which `jd_decomp` fails (here with
JRESULT code 6, a data format error), `decoder_read` nevertheless reports
`LV_RES_OK` to the caller and marks the undecoded strip as buffered, so the
next call serves from it instead of attempting a fresh refill.  The C source
assigns the `jd_decomp` result to a local `error` that is never examined. -/
theorem decoder_read_ignores_decomp_error :
    wFreshState.buffered_data = false ∧
    (errEngine { wFreshState.jdec with height := 8 } wFreshState.ctx.fp).res ≠ 0 ∧
    (decoder_read 2 errEngine wFreshState 0 0 4).retval = LvRes.ok ∧
    (decoder_read 2 errEngine wFreshState 0 0 4).st.buffered_data = true :=
  ⟨rfl, by decide, rfl, rfl⟩

/-- C9: two `decoder_read` calls from identical session state with the same
length return identical results — the same LVGL code, output bytes, new
state, and decompression count — whatever the `x` and `y` arguments are:
the body never reads them, so offset-column or out-of-order row requests
are neither detected nor rejected. -/
theorem decoder_read_ignores_xy (BPP : Nat) (engine : Engine)
    (st : AdapterState) (len : Nat) (x1 y1 x2 y2 : Int) :
    decoder_read BPP engine st x1 y1 len = decoder_read BPP engine st x2 y2 len :=
  rfl

/-- C1: for every file source that `decoder_info` accepts (a path ending in
`jpg` whose stream opens) and for which `jd_prepare` succeeds, the header it
returns has width equal to the engine-reported native width divided by the
scale divisor and height equal to the strip height constant 8, whatever the
engine-reported native height is.  The bound on the native width keeps the
C cast of `jdec.width` to `lv_coord_t` (`int16_t`) value-preserving. -/
theorem decoder_info_header_dims (DIV : Nat) (prepare : Prepare) (s : Stream)
    (st : AdapterState) (src : ImgSrc)
    (hty : src.srcType = ImgSrcType.file)
    (hext : src.filename.drop (src.filename.length - 3) = ['j', 'p', 'g'])
    (hok : (prepare (some s)).res = 0)
    (hw : (prepare (some s)).width ≤ 32767) :
    (decoder_info DIV prepare (some s) st src).retval = LvRes.ok ∧
    (decoder_info DIV prepare (some s) st src).header
      = some { always_zero := 0, cf := LV_IMG_CF_RAW,
               w := (prepare (some s)).width / DIV, h := 8 } := by
  obtain ⟨ty, fn⟩ := src
  simp only at hty hext
  subst hty
  simp [decoder_info, hext, hok]

/-- Witness for C1 at a concrete input: source `a.jpg`, a prepare stub
reporting a 64-by-64 native image, divisor 1: the header reads width 64 and
height 8. -/
theorem decoder_info_header_dims_witness :
    (wSrcJpg.srcType = ImgSrcType.file ∧
      wSrcJpg.filename.drop (wSrcJpg.filename.length - 3) = ['j', 'p', 'g'] ∧
      (okPrepare (some wStream)).res = 0 ∧
      (okPrepare (some wStream)).width ≤ 32767) ∧
    ((decoder_info 1 okPrepare (some wStream) wFreshState wSrcJpg).retval
        = LvRes.ok ∧
      (decoder_info 1 okPrepare (some wStream) wFreshState wSrcJpg).header
        = some { always_zero := 0, cf := LV_IMG_CF_RAW,
                 w := (okPrepare (some wStream)).width / 1, h := 8 }) :=
  ⟨⟨rfl, by decide, rfl, by decide⟩,
    decoder_info_header_dims 1 okPrepare wStream wFreshState wSrcJpg
      rfl (by decide) rfl (by decide)⟩

/-- C5 (code bug): when `decoder_info` has opened the stream and
`jd_prepare` then fails (here with JRESULT code 6), the call returns
`LV_RES_INV` but leaves the opened stream in `user_ctx.fp` — the C source
has no `fclose` on this path, so a resource stays allocated. -/
theorem decoder_info_leaks_stream_on_prepare_failure :
    (failPrepare (some wStream)).res ≠ 0 ∧
    (decoder_info 1 failPrepare (some wStream) wFreshState wSrcJpg).retval
      = LvRes.inv ∧
    (decoder_info 1 failPrepare (some wStream) wFreshState wSrcJpg).st.ctx.fp
      = some wStream :=
  ⟨by decide, by decide, by decide⟩

/-- C6 (code bug): `decoder_close` in a state where the stream is open and a
strip buffer is resident frees the engine work area, but neither closes the
stream nor releases the strip buffer — both survive the call, contradicting
the claim that `close` releases every owned resource. -/
theorem decoder_close_leaks_stream_and_strip :
    wStateLines7.ctx.fp = some wStream ∧
    wStateLines7.ctx.frame_buffer = some wStripBuf ∧
    (decoder_close wStateLines7 wDsc).1.ctx.work = false ∧
    (decoder_close wStateLines7 wDsc).1.ctx.fp = some wStream ∧
    (decoder_close wStateLines7 wDsc).1.ctx.frame_buffer = some wStripBuf :=
  ⟨rfl, rfl, rfl, rfl, rfl⟩

/-- C10: every cache-miss `decoder_read` overwrites `jdec.height` with the
strip height 8 before invoking `jd_decomp` — the engine only ever sees a
session object with height 8 — so after the first line read the session no
longer records the native height; and the mutation persists: any further
`decoder_read` (hit or miss) keeps the height at 8, and `decoder_close`
leaves `jdec` untouched, so only the next `jd_prepare` (in `decoder_info`,
which rewrites `jdec` from the engine's report) can change it. -/
theorem decoder_read_overwrites_jdec_height (BPP : Nat) (engine : Engine)
    (st : AdapterState) (x y : Int) (len : Nat)
    (hmiss : st.buffered_data = false) :
    (decoder_read BPP engine st x y len).st.jdec.height = 8 ∧
    decoder_read BPP engine st x y len
      = decoder_read BPP (fun j fp => engine { j with height := 8 } fp) st x y len ∧
    (∀ (engine2 : Engine) (st2 : AdapterState) (x2 y2 : Int) (len2 : Nat),
      st2.jdec.height = 8 →
      (decoder_read BPP engine2 st2 x2 y2 len2).st.jdec.height = 8) ∧
    (∀ (st2 : AdapterState) (dsc : Dsc), (decoder_close st2 dsc).1.jdec = st2.jdec) ∧
    (∀ (DIV : Nat) (prepare : Prepare) (s2 : Stream) (st2 : AdapterState)
        (src2 : ImgSrc),
      src2.srcType = ImgSrcType.file →
      src2.filename.drop (src2.filename.length - 3) = ['j', 'p', 'g'] →
      (decoder_info DIV prepare (some s2) st2 src2).st.jdec.height
        = (prepare (some s2)).height) := by
  refine ⟨?_, ?_, ?_, ?_, ?_⟩
  · simp [decoder_read, hmiss]
  · rfl
  · intro engine2 st2 x2 y2 len2 h8
    by_cases hb : st2.buffered_data
    · by_cases h7 : 7 < (st2.lines_sent + 1) % 256 <;>
        simp [decoder_read, hb, h7, h8]
    · simp [decoder_read, hb]
  · intro st2 dsc; rfl
  · intro DIV prepare s2 st2 src2 hty hext
    obtain ⟨ty, fn⟩ := src2
    simp only at hty hext
    subst hty
    by_cases hres : (prepare (some s2)).res = 0 <;>
      simp [decoder_info, hext, hres]

/-- Witness for C10 at a concrete input: a fresh (unbuffered) state. -/
theorem decoder_read_overwrites_jdec_height_witness :
    wFreshState.buffered_data = false ∧
    ((decoder_read 2 nullEngine wFreshState 0 0 4).st.jdec.height = 8 ∧
    decoder_read 2 nullEngine wFreshState 0 0 4
      = decoder_read 2 (fun j fp => nullEngine { j with height := 8 } fp)
          wFreshState 0 0 4 ∧
    (∀ (engine2 : Engine) (st2 : AdapterState) (x2 y2 : Int) (len2 : Nat),
      st2.jdec.height = 8 →
      (decoder_read 2 engine2 st2 x2 y2 len2).st.jdec.height = 8) ∧
    (∀ (st2 : AdapterState) (dsc : Dsc), (decoder_close st2 dsc).1.jdec = st2.jdec) ∧
    (∀ (DIV : Nat) (prepare : Prepare) (s2 : Stream) (st2 : AdapterState)
        (src2 : ImgSrc),
      src2.srcType = ImgSrcType.file →
      src2.filename.drop (src2.filename.length - 3) = ['j', 'p', 'g'] →
      (decoder_info DIV prepare (some s2) st2 src2).st.jdec.height
        = (prepare (some s2)).height)) :=
  ⟨rfl, decoder_read_overwrites_jdec_height 2 nullEngine wFreshState 0 0 4 rfl⟩

end LvTjpgd
